import Mathlib

/-!
Shallow embedding of `src/XiCON/XiCON_Dance_SCAIL/handler.py` (the Job
Execution Orchestrator of the xicon serverless worker), together with
theorems settling the specification claims about it.

Conventions of the embedding:
* Python integers are `Int`; Python `//` on a positive divisor is `Int.ediv`
  and `%` on a positive divisor is `Int.emod` (both agree with Python's
  floored semantics for a positive divisor).
* Python `dict.get(k, d)` on a modelled record field `f : Option _` is
  `f.getD d`; a JSON field that may be missing is an `Option`.
* Fallible external I/O (HTTP, websocket, filesystem) is passed in as an
  explicit oracle inside a `World` record; the handler is then a pure
  function of its input and the world.
* Byte strings are `List Nat` (one entry per byte).
-/

namespace XiconHandler

/-! ## Data model: job input (the `job["input"]` dict) -/

/-- The `images` sub-dict of the request.  `reference_image` is `none` when the
key is absent; the empty string models a present-but-falsy value. -/
structure ImagesField where
  reference_image : Option String
deriving DecidableEq, Repr

/-- The `videos` sub-dict of the request. -/
structure VideosField where
  dance_video : Option String
deriving DecidableEq, Repr

/-- The request body handed to `validate_input`.  A `none` field models an
absent JSON key.  `cfg` is carried opaquely as an integer-valued number
(no claim depends on its float conversion); the `str`-typed-input and
non-numeric-parameter branches of `validate_input` are outside the claims
and are not modelled. -/
structure JobInput where
  images : Option ImagesField
  videos : Option VideosField
  prompt : Option String
  negative_prompt : Option String
  width : Option Int
  height : Option Int
  steps : Option Int
  cfg : Option Int
  seed : Option Int
deriving DecidableEq, Repr

/-- The validated-parameter record returned by `validate_input`. -/
structure ValidatedData where
  reference_image_url : String
  dance_video_url : String
  prompt : String
  negative_prompt : String
  width : Int
  height : Int
  steps : Int
  cfg : Int
  seed : Int
deriving DecidableEq, Repr

/-- `width = (width // 32) * 32` adjustment of `validate_input` (applied when
`width % 32 != 0`). -/
def adjust32 (w : Int) : Int :=
  if w % 32 = 0 then w else w / 32 * 32

/-- Seed substitution of `validate_input`:
`seed = int(seed) if seed != -1 else int(time.time() * 1000) % (2**31)`.
`nowMs` is the nonnegative millisecond clock `int(time.time() * 1000)`. -/
def substituteSeed (seed : Int) (nowMs : Nat) : Int :=
  if seed ≠ -1 then seed else (nowMs : Int) % 2 ^ 31

/-- Embedding of `validate_input` (handler.py lines 63-153). -/
def validate_input (job_input : Option JobInput) (nowMs : Nat) :
    Except String ValidatedData :=
  match job_input with
  | none => .error "Please provide input"
  | some ji =>
    match ji.images with
    | none => .error "Missing 'images' parameter"
    | some imgs =>
      let reference_image := imgs.reference_image.getD ""
      if reference_image = "" then .error "Missing 'reference_image' in images"
      else
        match ji.videos with
        | none => .error "Missing 'videos' parameter"
        | some vids =>
          let dance_video := vids.dance_video.getD ""
          let prompt := ji.prompt.getD ""
          if prompt = "" then .error "Missing 'prompt' parameter"
          else
            let negative_prompt := ji.negative_prompt.getD ""
            let width := ji.width.getD 512
            let height := ji.height.getD 896
            let steps := ji.steps.getD 6
            let cfg := ji.cfg.getD 1
            let seed := substituteSeed (ji.seed.getD (-1)) nowMs
            .ok
              { reference_image_url := reference_image
                dance_video_url := dance_video
                prompt := prompt
                negative_prompt := negative_prompt
                width := adjust32 width
                height := adjust32 height
                steps := steps
                cfg := cfg
                seed := seed }

/-! ## URL path and extension helpers

`download_inputs_async` derives local file names via
`os.path.splitext(urllib.parse.urlparse(url).path)[1]`. -/

/-- Drop everything up to and including the first occurrence of `pat`. -/
def dropThrough (cs pat : List Char) : Option (List Char) :=
  match cs with
  | [] => none
  | _ :: tail =>
    if pat.isPrefixOf cs then some (cs.drop pat.length)
    else dropThrough tail pat

/-- `urllib.parse.urlparse(url).path` for the absolute-URL and bare-path
shapes used by the handler: strip `scheme://netloc`, stop at `?` or `#`. -/
def urlPath (url : String) : String :=
  match dropThrough url.data "://".data with
  | some rest =>
    let afterNetloc := rest.dropWhile (fun c => c ≠ '/')
    String.mk (afterNetloc.takeWhile (fun c => c ≠ '?' ∧ c ≠ '#'))
  | none => String.mk (url.data.takeWhile (fun c => c ≠ '?' ∧ c ≠ '#'))

/-- `os.path.splitext(p)[1]`: the extension starts at the last dot of the
basename, provided a non-dot character precedes that dot within the
basename (so dotfiles have no extension). -/
def splitextExt (p : String) : String :=
  let basename := (p.data.reverse.takeWhile (fun c => c ≠ '/')).reverse
  let revBase := basename.reverse
  let afterDotRev := revBase.takeWhile (fun c => c ≠ '.')
  if afterDotRev.length = revBase.length then ""
  else
    let beforeDot := basename.take (basename.length - afterDotRev.length - 1)
    if beforeDot.any (fun c => c ≠ '.') then
      String.mk ('.' :: afterDotRev.reverse)
    else ""

/-- `os.path.splitext(urlparse(url).path)[1] or default`. -/
def urlExt (url dflt : String) : String :=
  let e := splitextExt (urlPath url)
  if e = "" then dflt else e

/-! ## InputAcquirer: `download_inputs_async` (handler.py lines 196-245)

Each download either succeeds (the file is written under the input
directory before `(True, "")` is returned) or fails without leaving its
file (`(False, error)`).  `asyncio.gather` runs every task to completion,
so a failed task does not prevent the other task's file from being
written; the results are then inspected in task order (reference first),
and on the first failure the function returns the empty filename dict
together with that task's error message. -/

/-- Outcomes of the at-most-two concurrent downloads, supplied by the world. -/
structure DlWorld where
  refOk : Bool
  refErr : String
  videoOk : Bool
  videoErr : String
deriving DecidableEq, Repr

/-- Embedding of `download_inputs_async` / `download_inputs`.  Returns the
list of files actually written to the input directory (the side effect)
and either the filename dict or the first error message. -/
def download_inputs (v : ValidatedData) (jobId : String) (w : DlWorld) :
    List String × Except String (List (String × String)) :=
  let refName := "ref_" ++ jobId ++ urlExt v.reference_image_url ".png"
  let hasVideo := v.dance_video_url ≠ ""
  let videoName :=
    if hasVideo then "dance_" ++ jobId ++ urlExt v.dance_video_url ".mp4" else ""
  let written :=
    (if w.refOk then [refName] else []) ++
      (if hasVideo ∧ w.videoOk then [videoName] else [])
  let result : Except String (List (String × String)) :=
    if ¬ w.refOk then .error w.refErr
    else if hasVideo ∧ ¬ w.videoOk then .error w.videoErr
    else .ok [("reference_image", refName), ("dance_video", videoName)]
  (written, result)

/-- Embedding of `cleanup_input_files` (handler.py lines 665-677): for every
entry of the filename dict with a truthy filename, remove that file from
the input directory if it exists.  Returns the files still on disk. -/
def cleanup_input_files (filenames : List (String × String))
    (files : List String) : List String :=
  files.filter (fun f => ¬ filenames.any (fun p => p.2 ≠ "" ∧ p.2 = f))

/-! ## OutputCollector: `process_image_output`, `process_video_output`,
`process_outputs` (handler.py lines 477-658) -/

/-- Base64 alphabet used by `base64.b64encode`. -/
def b64Chars : List Char :=
  "ABCDEFGHIJKLMNOPQRSTUVWXYZabcdefghijklmnopqrstuvwxyz0123456789+/".data

/-- One base64 output character. -/
def b64Char (i : Nat) : Char :=
  b64Chars.getD i 'A'

/-- `base64.b64encode` on a byte list (standard alphabet, `=` padding). -/
def base64Chars : List Nat → List Char
  | [] => []
  | [a] =>
    [b64Char (a / 4 % 64), b64Char (a % 4 * 16), '=', '=']
  | [a, b] =>
    [b64Char (a / 4 % 64), b64Char (a % 4 * 16 + b / 16 % 16),
      b64Char (b % 16 * 4), '=']
  | a :: b :: c :: rest =>
    b64Char (a / 4 % 64) :: b64Char (a % 4 * 16 + b / 16 % 16) ::
      b64Char (b % 16 * 4 + c / 64 % 4) :: b64Char (c % 64) :: base64Chars rest

/-- `base64.b64encode(bytes).decode("utf-8")`. -/
def base64Encode (bytes : List Nat) : String :=
  String.mk (base64Chars bytes)

/-- One entry of a node's `images`/`gifs` output list in the ComfyUI
history.  `none` fields model absent JSON keys. -/
structure FileEntry where
  filename : Option String
  subfolder : Option String
  ftype : Option String
  format : Option String
deriving DecidableEq, Repr

/-- One node's entry in the history `outputs` mapping.  `otherKeys` are
output keys other than `images`/`gifs` (only logged by the code). -/
structure NodeOutput where
  images : Option (List FileEntry)
  gifs : Option (List FileEntry)
  otherKeys : List String
deriving DecidableEq, Repr

/-- A processed artifact as returned to the caller: the `type` field of the
source dict is `dtype` here (`"base64"` or `"s3_url"`), `data` holds the
base64 text or the upload URL, and `format` is present for videos only. -/
structure ProcessedFile where
  filename : String
  dtype : String
  data : String
  format : Option String
deriving DecidableEq, Repr

/-- `get_file_data` oracle: maps (filename, subfolder, type) to the fetched
bytes, `none` modelling a timeout or HTTP error. -/
def FetchFn : Type := String → String → String → Option (List Nat)

/-- Upload oracle for the S3 branch (`rp_upload.upload_image` /
`rp_upload.upload_file`): `none` models an upload exception. -/
def UploadFn : Type := String → Option String

/-- Embedding of `process_image_output` (handler.py lines 477-526).
`bucket` is whether `BUCKET_ENDPOINT_URL` is set.  The code treats empty
fetched bytes (`if not image_bytes`) like a fetch failure. -/
def process_image_output (fetch : FetchFn) (bucket : Bool)
    (uploadImage : UploadFn) (imageInfo : FileEntry) : Option ProcessedFile :=
  let subfolder := imageInfo.subfolder.getD ""
  let imgType := imageInfo.ftype.getD "output"
  if imgType = "temp" then none
  else
    match imageInfo.filename with
    | none => none
    | some fn =>
      if fn = "" then none
      else
        match fetch fn subfolder imgType with
        | none => none
        | some [] => none
        | some bytes =>
          if bucket then
            match uploadImage fn with
            | some url => some ⟨fn, "s3_url", url, none⟩
            | none => none
          else some ⟨fn, "base64", base64Encode bytes, none⟩

/-- Embedding of `process_video_output` (handler.py lines 529-610): same
shape as the image path, plus the content-format tag
`video_info.get("format", "video/h264-mp4")` carried into the result. -/
def process_video_output (fetch : FetchFn) (bucket : Bool)
    (uploadFile : UploadFn) (videoInfo : FileEntry) : Option ProcessedFile :=
  let subfolder := videoInfo.subfolder.getD ""
  let videoType := videoInfo.ftype.getD "output"
  let videoFormat := videoInfo.format.getD "video/h264-mp4"
  if videoType = "temp" then none
  else
    match videoInfo.filename with
    | none => none
    | some fn =>
      if fn = "" then none
      else
        match fetch fn subfolder videoType with
        | none => none
        | some [] => none
        | some bytes =>
          if bucket then
            match uploadFile fn with
            | some url => some ⟨fn, "s3_url", url, some videoFormat⟩
            | none => none
          else some ⟨fn, "base64", base64Encode bytes, some videoFormat⟩

/-- Folding step over one node's image entries (the inner `for` loop of
`process_outputs`): a `None` result for a non-`temp` entry appends a
per-node error (the code checks the raw `image_info.get("type")` here). -/
def processImageEntries (fetch : FetchFn) (bucket : Bool)
    (uploadImage : UploadFn) (nodeId : String) (entries : List FileEntry)
    (acc : List ProcessedFile × List String) :
    List ProcessedFile × List String :=
  entries.foldl
    (fun acc e =>
      match process_image_output fetch bucket uploadImage e with
      | some r => (acc.1 ++ [r], acc.2)
      | none =>
        if e.ftype ≠ some "temp" then
          (acc.1, acc.2 ++ ["Failed to process image from node " ++ nodeId])
        else acc)
    acc

/-- Folding step over one node's `gifs` (video) entries. -/
def processVideoEntries (fetch : FetchFn) (bucket : Bool)
    (uploadFile : UploadFn) (nodeId : String) (entries : List FileEntry)
    (acc : List ProcessedFile × List String) :
    List ProcessedFile × List String :=
  entries.foldl
    (fun acc e =>
      match process_video_output fetch bucket uploadFile e with
      | some r => (acc.1 ++ [r], acc.2)
      | none =>
        if e.ftype ≠ some "temp" then
          (acc.1, acc.2 ++ ["Failed to process video from node " ++ nodeId])
        else acc)
    acc

/-- Embedding of `process_outputs` (handler.py lines 613-658): walk the
history `outputs` mapping; `images` entries become image artifacts, `gifs`
entries become video artifacts, every other key is ignored. -/
def process_outputs (fetch : FetchFn) (bucket : Bool)
    (uploadImage uploadFile : UploadFn)
    (outputs : List (String × NodeOutput)) :
    List ProcessedFile × List ProcessedFile × List String :=
  outputs.foldl
    (fun acc node =>
      let (images, videos, errors) := acc
      let (images, errors) :=
        match node.2.images with
        | none => (images, errors)
        | some entries =>
          processImageEntries fetch bucket uploadImage node.1 entries
            (images, errors)
      let (videos, errors) :=
        match node.2.gifs with
        | none => (videos, errors)
        | some entries =>
          processVideoEntries fetch bucket uploadFile node.1 entries
            (videos, errors)
      (images, videos, errors))
    ([], [], [])

/-! ## ExecutionTracker: websocket frames, reconnection, event loop
(handler.py lines 438-470 and 766-820) -/

/-- A JSON value as decoded by `json.loads` (numbers restricted to the
integers the protocol uses; floats are not modelled). -/
inductive Json
  | null
  | boolJ (b : Bool)
  | numJ (n : Int)
  | strJ (s : String)
  | arrJ (elems : List Json)
  | objJ (fields : List (String × Json))
deriving Repr

/-- `dict.get(k)` on a decoded JSON object (`json.loads` keeps one value
per key, so the field lists here have unique keys). -/
def jsonGet (fields : List (String × Json)) (k : String) : Option Json :=
  (fields.find? (fun p => p.1 == k)).map (fun p => p.2)

/-- `type(x).__name__` of a decoded JSON value. -/
def pyTypeName : Json → String
  | .null => "NoneType"
  | .boolJ _ => "bool"
  | .numJ _ => "int"
  | .strJ _ => "str"
  | .arrJ _ => "list"
  | .objJ _ => "dict"

mutual

/-- Python `repr()` of a decoded JSON value (string escaping is not
modelled: plain single quotes only, as for the protocol's plain strings). -/
def pyRepr : Json → String
  | .null => "None"
  | .boolJ true => "True"
  | .boolJ false => "False"
  | .numJ n => toString n
  | .strJ s => "'" ++ s ++ "'"
  | .arrJ xs => "[" ++ pyReprList xs ++ "]"
  | .objJ kvs => "\x7b" ++ pyReprObj kvs ++ "\x7d"

/-- `", ".join(repr(x) for x in xs)`. -/
def pyReprList : List Json → String
  | [] => ""
  | [x] => pyRepr x
  | x :: y :: rest => pyRepr x ++ ", " ++ pyReprList (y :: rest)

/-- The comma-joined `'key': repr(value)` entries of a dict repr. -/
def pyReprObj : List (String × Json) → String
  | [] => ""
  | [(k, v)] => "'" ++ k ++ "': " ++ pyRepr v
  | (k, v) :: p :: rest =>
    "'" ++ k ++ "': " ++ pyRepr v ++ ", " ++ pyReprObj (p :: rest)

end

/-- Python `str()` of a decoded JSON value, as interpolated by an f-string
(strings appear bare; values nested in lists and dicts use `repr`). -/
def pyStr : Json → String
  | .strJ s => s
  | j => pyRepr j

/-- f-string rendering of `data.get(k)`: a missing key renders as `None`. -/
def pyGetStr (v : Option Json) : String :=
  pyStr (v.getD .null)

/-- Python `v == s` for a `dict.get` result and a string literal: true
exactly when the value is that string (`None`, numbers, booleans, lists
and dicts never equal a string). -/
def isStrVal (v : Option Json) (s : String) : Bool :=
  match v with
  | some (.strJ t) => t == s
  | _ => false

/-- Python `data.get(k) is None`: the key is missing or its value is JSON
null. -/
def isNoneLike (v : Option Json) : Bool :=
  match v with
  | none => true
  | some .null => true
  | _ => false

/-- The `AttributeError` message Python raises for `x.get(...)` when `x` is
not a dict. -/
def noGetAttrMsg (j : Json) : String :=
  "'" ++ pyTypeName j ++ "' object has no attribute 'get'"

/-- Whether a decoded JSON value is an object (a Python dict). -/
def Json.isObj : Json → Bool
  | .objJ _ => true
  | _ => false

/-- One received websocket frame, as seen by the event loop.
`timeoutF` models a `WebSocketTimeoutException` raised by `ws.recv()`,
`connClosed` a `WebSocketConnectionClosedException` (carrying its string
form, used as the initial `last_error` of the reconnect helper),
`malformed` a text frame that `json.loads` rejects (`JSONDecodeError`),
`textJson` a text frame carrying an arbitrary decoded JSON payload
(including non-protocol shapes such as `null` or arrays, on which the
loop body raises), and `binaryFrame` a non-`str` frame.  The first five
constructors are shorthands for the protocol-shaped payloads;
`processFrame_textJson_agrees` proves they behave exactly like their
`textJson` encodings. -/
inductive Frame
  | statusF (queueRemaining : Nat)
  | executingF (node : Option String) (promptId : Option String)
  | executionErrorF (promptId : Option String)
      (nodeType nodeId message : String)
  | progressF (value maxVal : Nat)
  | otherF (ty : String)
  | textJson (parsed : Json)
  | malformed
  | binaryFrame
  | timeoutF
  | connClosed (err : String)
deriving Repr

/-- The protocol-shaped JSON payload of a `status` frame. -/
def statusJson (queueRemaining : Nat) : Json :=
  .objJ [("type", .strJ "status"),
    ("data", .objJ [("status", .objJ [("exec_info",
      .objJ [("queue_remaining", .numJ queueRemaining)])])])]

/-- The protocol-shaped JSON payload of an `executing` frame (a `none`
node encodes JSON null; a `none` prompt id encodes a missing key). -/
def executingJson (node promptId : Option String) : Json :=
  .objJ [("type", .strJ "executing"),
    ("data", .objJ
      ((match node with
        | none => [("node", Json.null)]
        | some s => [("node", Json.strJ s)]) ++
        (match promptId with
        | none => []
        | some p => [("prompt_id", Json.strJ p)])))]

/-- The protocol-shaped JSON payload of an `execution_error` frame. -/
def executionErrorJson (promptId : Option String)
    (nodeType nodeId message : String) : Json :=
  .objJ [("type", .strJ "execution_error"),
    ("data", .objJ
      ((match promptId with
        | none => []
        | some p => [("prompt_id", Json.strJ p)]) ++
        [("node_type", .strJ nodeType), ("node_id", .strJ nodeId),
          ("exception_message", .strJ message)]))]

/-- The protocol-shaped JSON payload of a `progress` frame. -/
def progressJson (value maxVal : Nat) : Json :=
  .objJ [("type", .strJ "progress"),
    ("data", .objJ [("value", .numJ value), ("max", .numJ maxVal)])]

/-- Mutable state of the `while True` receive loop: the `execution_done`
flag and the accumulated `errors` list. -/
structure LoopState where
  executionDone : Bool
  errors : List String
deriving DecidableEq, Repr

/-- What one loop iteration does with a frame.  `raiseF` models an
exception raised inside the loop body (`AttributeError`/`TypeError` on a
non-protocol payload) that none of the loop's `except` clauses catch. -/
inductive StepResult
  | contF (st : LoopState)
  | breakF (st : LoopState)
  | reconnectF (err : String)
  | raiseF (err : String)
deriving DecidableEq, Repr

/-- The `100*value//max_val` interpolation of the progress print (handler.py
line 802), reached only when `max_val > 0`: a non-numeric `value` raises a
`TypeError` (string and list values survive the `100*value` sequence
repetition and fail at `//`; `None` and dicts fail at `*`). -/
def progressValueStep (value : Json) (st : LoopState) : StepResult :=
  match value with
  | .numJ _ => .contF st
  | .boolJ _ => .contF st
  | .strJ _ => .raiseF "unsupported operand type(s) for //: 'str' and 'int'"
  | .arrJ _ => .raiseF "unsupported operand type(s) for //: 'list' and 'int'"
  | .null => .raiseF "unsupported operand type(s) for *: 'int' and 'NoneType'"
  | .objJ _ => .raiseF "unsupported operand type(s) for *: 'int' and 'dict'"

/-- Embedding of the loop body's interpretation of one decoded JSON payload
(handler.py lines 770-802).  Mirrors the Python attribute accesses exactly:
`message.get("type")` and every chained `.get` demand a dict and raise an
`AttributeError` otherwise; `executing` completes the job when `node` is
null/missing and `prompt_id` matches; `execution_error` records the
component detail rendered as Python's f-string would; `progress` compares
`max_val > 0` (a `TypeError` for non-numeric values) and otherwise only
prints; any other or missing `type` does nothing. -/
def interpretMessage (promptId : String) (st : LoopState) (j : Json) :
    StepResult :=
  match j with
  | .objJ kvs =>
    let msgType := jsonGet kvs "type"
    if isStrVal msgType "status" then
      match (jsonGet kvs "data").getD (.objJ []) with
      | .objJ dkvs =>
        match (jsonGet dkvs "status").getD (.objJ []) with
        | .objJ skvs =>
          match (jsonGet skvs "exec_info").getD (.objJ []) with
          | .objJ _ => .contF st
          | other => .raiseF (noGetAttrMsg other)
        | other => .raiseF (noGetAttrMsg other)
      | other => .raiseF (noGetAttrMsg other)
    else if isStrVal msgType "executing" then
      match (jsonGet kvs "data").getD (.objJ []) with
      | .objJ dkvs =>
        if isNoneLike (jsonGet dkvs "node") ∧
            isStrVal (jsonGet dkvs "prompt_id") promptId then
          .breakF { st with executionDone := true }
        else .contF st
      | other => .raiseF (noGetAttrMsg other)
    else if isStrVal msgType "execution_error" then
      match (jsonGet kvs "data").getD (.objJ []) with
      | .objJ dkvs =>
        if isStrVal (jsonGet dkvs "prompt_id") promptId then
          .breakF
            { st with
              errors := st.errors ++
                ["Workflow execution error: Node Type: " ++
                  pyGetStr (jsonGet dkvs "node_type") ++ ", Node ID: " ++
                  pyGetStr (jsonGet dkvs "node_id") ++ ", Message: " ++
                  pyGetStr (jsonGet dkvs "exception_message")] }
        else .contF st
      | other => .raiseF (noGetAttrMsg other)
    else if isStrVal msgType "progress" then
      match (jsonGet kvs "data").getD (.objJ []) with
      | .objJ dkvs =>
        match (jsonGet dkvs "max").getD (.numJ 0) with
        | .numJ m =>
          if m > 0 then
            progressValueStep ((jsonGet dkvs "value").getD (.numJ 0)) st
          else .contF st
        | .boolJ b =>
          if b then
            progressValueStep ((jsonGet dkvs "value").getD (.numJ 0)) st
          else .contF st
        | other =>
          .raiseF ("'>' not supported between instances of '" ++
            pyTypeName other ++ "' and 'int'")
      | other => .raiseF (noGetAttrMsg other)
    else .contF st
  | other => .raiseF (noGetAttrMsg other)

/-- Embedding of one iteration of the receive loop (handler.py lines
766-817): interpret a frame against the current state.  Only `executing`
with a null node and a matching prompt id completes the job; only a
matching `execution_error` records a terminal error; status, progress,
unknown types, JSON parse failures, binary frames and receive timeouts
leave the state unchanged and continue; a decoded payload that is not
protocol-shaped raises (see `interpretMessage`), which no `except` of the
loop catches. -/
def processFrame (promptId : String) (st : LoopState) : Frame → StepResult
  | .statusF _ => .contF st
  | .executingF node pid =>
    if node = none ∧ pid = some promptId then
      .breakF { st with executionDone := true }
    else .contF st
  | .executionErrorF pid nodeType nodeId message =>
    if pid = some promptId then
      .breakF
        { st with
          errors := st.errors ++
            ["Workflow execution error: Node Type: " ++ nodeType ++
              ", Node ID: " ++ nodeId ++ ", Message: " ++ message] }
    else .contF st
  | .progressF _ _ => .contF st
  | .otherF _ => .contF st
  | .textJson j => interpretMessage promptId st j
  | .malformed => .contF st
  | .binaryFrame => .contF st
  | .timeoutF => .contF st
  | .connClosed err => .reconnectF err

/-- Result of `_attempt_websocket_reconnect`. -/
inductive ReconnectResult
  | reconnected (attempt : Nat)
  | abortedUnreachable
  | exhausted (lastError : String)
deriving DecidableEq, Repr

/-- Embedding of the `for attempt in range(max_attempts)` loop of
`_attempt_websocket_reconnect` (handler.py lines 438-470).  `reach a`
is the HTTP reachability probe `_comfy_server_status()["reachable"]`
before attempt `a`; `conn a` is attempt `a`'s connect outcome (`none` =
connected, `some e` = the raised connection error).  `attempt` is the
current index, the `Nat` fuel is the remaining iteration count, and
`lastError` is the current `last_error`. -/
def reconnectLoop (reach : Nat → Bool) (conn : Nat → Option String) :
    Nat → Nat → String → ReconnectResult
  | _, 0, lastError => .exhausted lastError
  | attempt, remaining + 1, _ =>
    if reach attempt then
      match conn attempt with
      | none => .reconnected attempt
      | some e => reconnectLoop reach conn (attempt + 1) remaining e
    else .abortedUnreachable

/-- Embedding of `_attempt_websocket_reconnect` as called on a closed
connection: start at attempt 0 with the closed-connection error as the
initial `last_error`. -/
def attempt_websocket_reconnect (reach : Nat → Bool)
    (conn : Nat → Option String) (maxAttempts : Nat)
    (initialError : String) : ReconnectResult :=
  reconnectLoop reach conn 0 maxAttempts initialError

/-- One reconnect episode's oracles: the reachability probe and the
per-attempt connect outcome. -/
structure Episode where
  reach : Nat → Bool
  conn : Nat → Option String

/-- Episode used when the episode list is shorter than the number of
connection closures in the frame schedule (a schedule artifact: the
probe succeeds and every connect attempt fails). -/
def defaultEpisode : Episode :=
  { reach := fun _ => true, conn := fun _ => some "connection refused" }

/-- How the receive loop ended.  `ranOut` marks exhaustion of the finite
frame schedule (the real loop would keep blocking on `recv`); the code
after the loop treats its state exactly like a `break`.  `raised` is an
exception from the loop body (e.g. `AttributeError` on a non-protocol
payload) escaping the `while` loop. -/
inductive LoopOutcome
  | exited (st : LoopState)
  | wsError (msg : String)
  | ranOut (st : LoopState)
  | raised (err : String)
deriving Repr

/-- Embedding of the `while True` receive loop (handler.py lines 766-817)
over a finite frame schedule.  On a closed connection the reconnect
helper runs; on success the loop continues with the next episode in
reserve, and on failure the raised `WebSocketConnectionClosedException`
escapes the loop (re-raised by the handler's inner `except`). -/
def eventLoop (promptId : String) (maxAttempts : Nat) :
    List Frame → List Episode → LoopState → LoopOutcome
  | [], _, st => .ranOut st
  | f :: rest, episodes, st =>
    match processFrame promptId st f with
    | .contF st' => eventLoop promptId maxAttempts rest episodes st'
    | .breakF st' => .exited st'
    | .raiseF err => .raised err
    | .reconnectF err =>
      let ep := episodes.headD defaultEpisode
      match attempt_websocket_reconnect ep.reach ep.conn maxAttempts err with
      | .reconnected _ =>
        eventLoop promptId maxAttempts rest (episodes.drop 1) st
      | .abortedUnreachable =>
        .wsError "ComfyUI HTTP unreachable during websocket reconnect"
      | .exhausted lastError =>
        .wsError
          ("Connection closed and failed to reconnect. Last error: " ++
            lastError)

/-! ## WorkflowSubmitter: structured-rejection message of `queue_workflow`
(handler.py lines 378-404) -/

/-- The `error` field of a 400 rejection body: either a plain string or an
object whose `message` key may be present. -/
inductive ErrField
  | strField (s : String)
  | objField (message : Option String)
deriving DecidableEq, Repr

/-- One node's value in the `node_errors` map: a kind-to-message dict or a
plain value rendered with `str`. -/
inductive NodeErrVal
  | dict (kvs : List (String × String))
  | plain (s : String)
deriving DecidableEq, Repr

/-- Per-node detail lines built by the nested `for` loops over
`node_errors`. -/
def nodeErrorDetails (nodeErrors : List (String × NodeErrVal)) : List String :=
  nodeErrors.flatMap fun p =>
    match p.2 with
    | .dict kvs =>
      kvs.map fun kv => "Node " ++ p.1 ++ " (" ++ kv.1 ++ "): " ++ kv.2
    | .plain s => ["Node " ++ p.1 ++ ": " ++ s]

/-- `"\n".join(lines)`. -/
def joinNL : List String → String
  | [] => ""
  | [s] => s
  | s :: t :: rest => s ++ "\n" ++ joinNL (t :: rest)

/-- The `ValueError` message built by `queue_workflow` for a structured 400
rejection (handler.py lines 380-402): the engine's rejection reason, then
one bulleted line per component diagnostic. -/
def queue_workflow_error_message (errorField : Option ErrField)
    (nodeErrors : Option (List (String × NodeErrVal))) : String :=
  let base :=
    match errorField with
    | none => "Workflow validation failed"
    | some (.objField message) => message.getD "Workflow validation failed"
    | some (.strField s) => s
  match nodeErrors with
  | none => base
  | some ne =>
    let details := nodeErrorDetails ne
    if details = [] then base
    else base ++ ":\n" ++ joinNL (details.map (fun d => "• " ++ d))

/-! ## Orchestrator: the `handler` function (handler.py lines 684-891) -/

/-- The stages the handler runs, in the order the code executes them; each
call of `cleanup_input_files` contributes one `cleanup` entry. -/
inductive Stage
  | validation
  | livenessCheck
  | inputAcquisition
  | templateLoad
  | transform
  | wsConnect
  | submission
  | tracking
  | collection
  | cleanup
deriving DecidableEq, Repr

/-- The handler's returned dict: either a success-shaped result
(`status`/`images`/`videos`/`errors`, empty lists modelling absent keys)
or an error dict (`error` plus optional `details`). -/
inductive Response
  | okR (status : String) (images videos : List ProcessedFile)
      (errors : List String)
  | errR (msg : String) (details : List String)
deriving DecidableEq, Repr

/-- Embedding of the response assembly (handler.py lines 871-891). -/
def buildResponse (images videos : List ProcessedFile)
    (errors : List String) : Response :=
  if images = [] ∧ videos = [] then
    if errors ≠ [] then .errR "Job processing failed" errors
    else .okR "success_no_output" [] [] []
  else .okR "success" images videos errors

/-- External-world oracle for one handler invocation.  Each field is the
outcome of one I/O interaction, in the order the code performs them. -/
structure World where
  /-- `int(time.time() * 1000)` at validation time. -/
  nowMs : Nat
  /-- Outcome of `check_server` (liveness polling exhausted = `false`). -/
  serverUp : Bool
  /-- Outcomes of the two concurrent input downloads. -/
  dl : DlWorld
  /-- `load_workflow_template`: `ok` or the returned error message. -/
  template : Except String Unit
  /-- `transform_request_to_workflow`: `some e` models a raised exception. -/
  transformErr : Option String
  /-- Initial `ws.connect`: `some e` models a raised `WebSocketException`. -/
  wsConnectErr : Option String
  /-- `queue_workflow` plus the `prompt_id` extraction: the engine job id,
  or the message of the raised `ValueError` (structured rejection,
  transport failure, or missing `prompt_id`). -/
  queueResult : Except String String
  /-- The websocket frame schedule. -/
  frames : List Frame
  /-- Reconnect oracles, one per connection closure. -/
  episodes : List Episode
  /-- `WEBSOCKET_RECONNECT_ATTEMPTS`. -/
  maxAttempts : Nat
  /-- `get_history`: `.error e` models a raised `RequestException`;
  `.ok none` means the prompt id is missing from the history;
  `.ok (some outputs)` is the `outputs` mapping of the history entry. -/
  historyFetch : Except String (Option (List (String × NodeOutput)))
  /-- `get_file_data` oracle. -/
  fetch : FetchFn
  /-- Whether `BUCKET_ENDPOINT_URL` is set. -/
  bucket : Bool
  /-- `rp_upload.upload_image` oracle. -/
  uploadImage : UploadFn
  /-- `rp_upload.upload_file` oracle. -/
  uploadFile : UploadFn

/-- Embedding of handler.py lines 819-891: the code after the receive
loop, entered with the loop's final state.  Fetches the history, collects
outputs, and assembles the response; `gone` is the file state after
cleanup and `preTrace` the stages already run. -/
def handlerAfterLoop (promptId : String) (w : World)
    (gone : List String) (preTrace : List Stage) (st : LoopState) :
    Response × List String × List Stage :=
  if ¬ st.executionDone ∧ st.errors = [] then
    -- `raise ValueError("Workflow loop exited without completion or error")`
    (.errR "Workflow loop exited without completion or error" [], gone,
      preTrace ++ [.cleanup, .cleanup])
  else
    match w.historyFetch with
    | .error e =>
      (.errR ("HTTP communication error: " ++ e) [], gone,
        preTrace ++ [.collection, .cleanup, .cleanup])
    | .ok none =>
      let notFound := "Prompt ID " ++ promptId ++ " not found in history"
      if st.errors ≠ [] then
        (.errR "Job processing failed" (st.errors ++ [notFound]), gone,
          preTrace ++ [.collection, .cleanup])
      else
        (.errR notFound [], gone, preTrace ++ [.collection, .cleanup])
    | .ok (some outputs) =>
      let errs :=
        if outputs = [] then st.errors ++ ["No outputs found in history"]
        else st.errors
      let (images, videos, processErrors) :=
        process_outputs w.fetch w.bucket w.uploadImage w.uploadFile outputs
      (buildResponse images videos (errs ++ processErrors), gone,
        preTrace ++ [.collection, .cleanup])

/-- Embedding of `handler` (handler.py lines 684-891).  Returns the
response, the job-scoped input files still on disk when the handler
returns, and the trace of executed stages.  `jobInput` is
`job.get("input")` and `jobId` is `job["id"]`. -/
def handler (jobInput : Option JobInput) (jobId : String) (w : World) :
    Response × List String × List Stage :=
  match validate_input jobInput w.nowMs with
  | .error msg => (.errR msg [], [], [.validation])
  | .ok v =>
    if ¬ w.serverUp then
      (.errR "ComfyUI server (127.0.0.1:8188) not reachable" [], [],
        [.validation, .livenessCheck])
    else
      let (written, dlResult) := download_inputs v jobId w.dl
      match dlResult with
      | .error msg =>
        -- the code returns here without any cleanup, and `download_inputs`
        -- returned the empty filename dict, so `written` stays on disk
        (.errR msg [], written, [.validation, .livenessCheck,
          .inputAcquisition])
      | .ok filenames =>
        match w.template with
        | .error msg =>
          (.errR msg [], cleanup_input_files filenames written,
            [.validation, .livenessCheck, .inputAcquisition, .templateLoad,
              .cleanup])
        | .ok _ =>
          match w.transformErr with
          | some e =>
            (.errR ("Failed to transform workflow: " ++ e) [],
              cleanup_input_files filenames written,
              [.validation, .livenessCheck, .inputAcquisition, .templateLoad,
                .transform, .cleanup])
          | none =>
            -- try block: cleanup runs in each except branch and again in
            -- the finally block (the second call finds nothing to remove)
            let gone := cleanup_input_files filenames written
            match w.wsConnectErr with
            | some e =>
              (.errR ("WebSocket communication error: " ++ e) [], gone,
                [.validation, .livenessCheck, .inputAcquisition,
                  .templateLoad, .transform, .wsConnect, .cleanup, .cleanup])
            | none =>
              match w.queueResult with
              | .error msg =>
                (.errR msg [], gone,
                  [.validation, .livenessCheck, .inputAcquisition,
                    .templateLoad, .transform, .wsConnect, .submission,
                    .cleanup, .cleanup])
              | .ok promptId =>
                let preTrace := [Stage.validation, .livenessCheck,
                  .inputAcquisition, .templateLoad, .transform, .wsConnect,
                  .submission, .tracking]
                match eventLoop promptId w.maxAttempts w.frames w.episodes
                    ⟨false, []⟩ with
                | .wsError msg =>
                  (.errR ("WebSocket communication error: " ++ msg) [], gone,
                    preTrace ++ [.cleanup, .cleanup])
                | .raised err =>
                  -- caught only by `except Exception` (handler.py 860-864)
                  (.errR ("Unexpected error: " ++ err) [], gone,
                    preTrace ++ [.cleanup, .cleanup])
                | .exited st =>
                  handlerAfterLoop promptId w gone preTrace st
                | .ranOut st =>
                  handlerAfterLoop promptId w gone preTrace st

/-- `needle` occurs as a contiguous substring of `hay`. -/
def strContains (needle hay : String) : Prop :=
  ∃ a b : List Char, hay.data = a ++ needle.data ++ b

/-- The relative order in which `handler` can run its stages (`cleanup` can
run twice: once in an `except` branch and once in the `finally` block). -/
def canonicalStageOrder : List Stage :=
  [.validation, .livenessCheck, .inputAcquisition, .templateLoad, .transform,
    .wsConnect, .submission, .tracking, .collection, .cleanup, .cleanup]

/-! ## Concrete instances used by witnesses and counterexamples -/

/-- A well-formed request with both media sources, width 100 and height 896,
and no seed. -/
def exInput : JobInput :=
  { images := some { reference_image := some "https://example.com/ref.png" }
    videos := some { dance_video := some "https://example.com/dance.mp4" }
    prompt := some "p"
    negative_prompt := none
    width := some 100
    height := some 896
    steps := none
    cfg := none
    seed := none }

/-- `validate_input` output for `exInput` at clock 5. -/
def exValidated : ValidatedData :=
  { reference_image_url := "https://example.com/ref.png"
    dance_video_url := "https://example.com/dance.mp4"
    prompt := "p"
    negative_prompt := ""
    width := 96
    height := 896
    steps := 6
    cfg := 1
    seed := 5 }

/-- `exInput` with an explicit seed of 7. -/
def exInputSeed7 : JobInput :=
  { exInput with seed := some 7 }

/-- `validate_input` output for `exInputSeed7` at clock 0. -/
def exValidatedSeed7 : ValidatedData :=
  { exValidated with seed := 7 }

/-- A world whose reference download succeeds and whose dance-video download
fails with an HTTP error; later stages are irrelevant. -/
def dlFailWorld : World :=
  { nowMs := 5
    serverUp := true
    dl := { refOk := true, refErr := "", videoOk := false,
            videoErr := "HTTP 404 downloading dance_video" }
    template := .ok ()
    transformErr := none
    wsConnectErr := none
    queueResult := .ok "p1"
    frames := []
    episodes := []
    maxAttempts := 5
    historyFetch := .ok none
    fetch := fun _ _ _ => none
    bucket := false
    uploadImage := fun _ => none
    uploadFile := fun _ => none }

/-- A world in which submission succeeds, the engine reports a matching
`execution_error` event, and the history still contains one fetchable image
output. -/
def execErrorWorld : World :=
  { dlFailWorld with
    dl := { refOk := true, refErr := "", videoOk := true, videoErr := "" }
    frames := [.executionErrorF (some "p1") "KSampler" "5" "boom"]
    historyFetch := .ok (some [("9",
      { images := some [{ filename := some "a.png", subfolder := none,
                          ftype := some "output", format := none }]
        gifs := none
        otherKeys := [] })])
    fetch := fun _ _ _ => some [1, 2, 3] }

/-- `execErrorWorld`, but the history entry has an empty `outputs` mapping,
so collection produces nothing. -/
def execErrorNoOutputWorld : World :=
  { execErrorWorld with historyFetch := .ok (some []) }

/-- The terminal-error message recorded for the `execution_error` event of
`execErrorWorld`. -/
def execErrorMsg : String :=
  "Workflow execution error: Node Type: KSampler, Node ID: 5, Message: boom"

/-- A fully successful world: clean execution, one image and one video in the
history (the video tagged `video/h264-mp4`), plus an ignored `text` key. -/
def successWorld : World :=
  { execErrorWorld with
    frames := [.statusF 1, .executingF (some "n") (some "p1"),
      .executingF none (some "p1")]
    historyFetch := .ok (some [("9",
      { images := some [{ filename := some "a.png", subfolder := none,
                          ftype := some "output", format := none }]
        gifs := some [{ filename := some "b.mp4", subfolder := none,
                        ftype := some "output",
                        format := some "video/h264-mp4" }]
        otherKeys := ["text"] })]) }

/-- The processed image artifact of `successWorld`. -/
def exImageArtifact : ProcessedFile :=
  { filename := "a.png", dtype := "base64", data := "AQID", format := none }

/-- The processed video artifact of `successWorld`. -/
def exVideoArtifact : ProcessedFile :=
  { filename := "b.mp4", dtype := "base64", data := "AQID",
    format := some "video/h264-mp4" }

/-- A `temp`-tagged manifest entry. -/
def exTempEntry : FileEntry :=
  { filename := some "t.png", subfolder := none, ftype := some "temp",
    format := none }

/-- A reconnect episode whose probe always succeeds and whose connect
attempts all fail with distinguishable errors. -/
def exFailEpisode : Episode :=
  { reach := fun _ => true
    conn := fun a => some (if a = 0 then "e0" else if a = 1 then "e1" else "e2") }

/-- A reconnect episode whose probe always succeeds, whose first connect
attempt fails and whose second succeeds. -/
def exRetryEpisode : Episode :=
  { reach := fun _ => true
    conn := fun a => if a = 0 then some "e0" else none }

/-- A fetch oracle that always returns three bytes. -/
def exFetch : FetchFn :=
  fun _ _ _ => some [1, 2, 3]

/-- An upload oracle that always fails. -/
def exUpload : UploadFn :=
  fun _ => none

/-- The manifest entry behind `exVideoArtifact`. -/
def exVideoEntry : FileEntry :=
  { filename := some "b.mp4", subfolder := none, ftype := some "output",
    format := some "video/h264-mp4" }

/-- `successWorld`, except that the engine sends a single text frame whose
payload is the valid JSON value `null` — not a protocol object. -/
def nonProtocolWorld : World :=
  { successWorld with frames := [.textJson .null] }

end XiconHandler

namespace XiconHandler

/-! ## Helper lemmas -/

/-- Inversion of a successful `validate_input`: the width, height and seed
fields of the validated data in terms of the request. -/
theorem validate_input_ok_fields {ji : JobInput} {t : Nat} {v : ValidatedData}
    (h : validate_input (some ji) t = .ok v) :
    v.width = adjust32 (ji.width.getD 512) ∧
    v.height = adjust32 (ji.height.getD 896) ∧
    v.seed = substituteSeed (ji.seed.getD (-1)) t := by
  cases hI : ji.images with
  | none => simp [validate_input, hI] at h
  | some imgs =>
    by_cases hR : imgs.reference_image.getD "" = ""
    · simp [validate_input, hI, hR] at h
    · cases hV : ji.videos with
      | none => simp [validate_input, hI, hR, hV] at h
      | some vids =>
        by_cases hP : ji.prompt.getD "" = ""
        · simp [validate_input, hI, hR, hV, hP] at h
        · simp [validate_input, hI, hR, hV, hP] at h
          subst h
          exact ⟨rfl, rfl, rfl⟩

theorem adjust32_dvd (w : Int) : 32 ∣ adjust32 w := by
  unfold adjust32
  split
  · exact Int.dvd_of_emod_eq_zero (by assumption)
  · exact dvd_mul_left 32 (w / 32)

theorem adjust32_le (w : Int) : adjust32 w ≤ w := by
  unfold adjust32
  split
  · exact le_refl w
  · have key := Int.ediv_add_emod w 32
    have hnn : 0 ≤ w % 32 := Int.emod_nonneg w (by norm_num)
    omega

theorem adjust32_maximal (w m : Int) (hm : 32 ∣ m) (hle : m ≤ w) :
    m ≤ adjust32 w := by
  unfold adjust32
  split
  · exact hle
  · obtain ⟨k, rfl⟩ := hm
    have hk : k ≤ w / 32 :=
      (Int.le_ediv_iff_mul_le (by norm_num : (0:Int) < 32)).mpr
        (by linarith [hle])
    calc 32 * k = k * 32 := mul_comm _ _
      _ ≤ w / 32 * 32 := mul_le_mul_of_nonneg_right hk (by norm_num)

theorem adjust32_of_dvd (w : Int) (h : 32 ∣ w) : adjust32 w = w := by
  unfold adjust32
  rw [if_pos (Int.emod_eq_zero_of_dvd h)]

/-- A member of a line list occurs as a substring of their `"\n"`-join. -/
theorem strContains_of_mem_joinNL (x : String) (l : List String) (hx : x ∈ l) :
    strContains x (joinNL l) := by
  induction l with
  | nil => cases hx
  | cons s tail ih =>
    cases tail with
    | nil =>
      have hxs : x = s := by simpa using hx
      subst hxs
      exact ⟨[], [], by simp [joinNL]⟩
    | cons t rest =>
      rcases List.mem_cons.mp hx with hxs | hmem
      · subst hxs
        exact ⟨[], ("\n" ++ joinNL (t :: rest)).data, by
          simp [joinNL, String.data_append, List.append_assoc]⟩
      · obtain ⟨a, b, hab⟩ := ih hmem
        exact ⟨s.data ++ "\n".data ++ a, b, by
          simp [joinNL, String.data_append, hab, List.append_assoc]⟩

/-! ## Claim theorems -/

/-- C7: for every requested integer width and height, the effective
dimensions placed in the validated request are the largest multiples of 32
not exceeding the requested values, and values already divisible by 32 are
unchanged. -/
theorem claim_C7_dimensions (ji : JobInput) (t : Nat) (v : ValidatedData)
    (wreq hreq : Int) (hw : ji.width = some wreq) (hh : ji.height = some hreq)
    (hok : validate_input (some ji) t = .ok v) :
    (32 ∣ v.width ∧ v.width ≤ wreq ∧
      ∀ m : Int, 32 ∣ m → m ≤ wreq → m ≤ v.width) ∧
    (32 ∣ v.height ∧ v.height ≤ hreq ∧
      ∀ m : Int, 32 ∣ m → m ≤ hreq → m ≤ v.height) ∧
    (32 ∣ wreq → v.width = wreq) ∧ (32 ∣ hreq → v.height = hreq) := by
  obtain ⟨hwv, hhv, -⟩ := validate_input_ok_fields hok
  rw [hw] at hwv
  rw [hh] at hhv
  simp only [Option.getD_some] at hwv hhv
  rw [hwv, hhv]
  exact ⟨⟨adjust32_dvd wreq, adjust32_le wreq,
      fun m hm hle => adjust32_maximal wreq m hm hle⟩,
    ⟨adjust32_dvd hreq, adjust32_le hreq,
      fun m hm hle => adjust32_maximal hreq m hm hle⟩,
    fun hd => adjust32_of_dvd wreq hd, fun hd => adjust32_of_dvd hreq hd⟩

/-- Witness for C7: request 100×896 yields effective width 96 (a multiple of
32 that is maximal below 100) and unchanged height 896. -/
theorem claim_C7_dimensions_witness :
    exValidated.width = 96 ∧ 32 ∣ exValidated.width ∧
      exValidated.width ≤ 100 ∧ (64 : Int) ≤ exValidated.width ∧
      exValidated.height = 896 :=
  ⟨rfl,
    (claim_C7_dimensions exInput 5 exValidated 100 896 rfl rfl rfl).1.1,
    (claim_C7_dimensions exInput 5 exValidated 100 896 rfl rfl rfl).1.2.1,
    (claim_C7_dimensions exInput 5 exValidated 100 896 rfl rfl rfl).1.2.2 64
      (by norm_num) (by norm_num),
    ((claim_C7_dimensions exInput 5 exValidated 100 896 rfl rfl rfl).2.2.2
      (by norm_num))⟩

/-- C10: if the seed parameter is absent or equals -1, validation substitutes
the millisecond clock reduced modulo 2^31 (hence a value in [0, 2^31));
any other seed value is passed through unchanged. -/
theorem claim_C10_seed (ji : JobInput) (t : Nat) (v : ValidatedData)
    (hok : validate_input (some ji) t = .ok v) :
    ((ji.seed = none ∨ ji.seed = some (-1)) →
      v.seed = (t : Int) % 2 ^ 31 ∧ 0 ≤ v.seed ∧ v.seed < 2 ^ 31) ∧
    (∀ n : Int, ji.seed = some n → n ≠ -1 → v.seed = n) := by
  obtain ⟨-, -, hs⟩ := validate_input_ok_fields hok
  constructor
  · intro habs
    have hd : ji.seed.getD (-1) = -1 := by
      rcases habs with h | h <;> simp [h]
    rw [hd] at hs
    have hv : v.seed = (t : Int) % 2 ^ 31 := by
      simpa [substituteSeed] using hs
    refine ⟨hv, ?_, ?_⟩
    · rw [hv]
      exact Int.emod_nonneg _ (by norm_num)
    · rw [hv]
      exact Int.emod_lt_of_pos _ (by norm_num)
  · intro n hn hne
    rw [hn] at hs
    simpa [substituteSeed, hne] using hs

/-- Witness for C10: with no seed and clock 5 the seed becomes `5 % 2^31 = 5`;
with seed 7 it is passed through. -/
theorem claim_C10_seed_witness :
    exValidated.seed = (5 : Int) % 2 ^ 31 ∧ 0 ≤ exValidated.seed ∧
      exValidated.seed < 2 ^ 31 ∧ exValidatedSeed7.seed = 7 :=
  ⟨((claim_C10_seed exInput 5 exValidated rfl).1 (Or.inl rfl)).1,
    ((claim_C10_seed exInput 5 exValidated rfl).1 (Or.inl rfl)).2.1,
    ((claim_C10_seed exInput 5 exValidated rfl).1 (Or.inl rfl)).2.2,
    (claim_C10_seed exInputSeed7 0 exValidatedSeed7 rfl).2 7 rfl
      (by norm_num)⟩

/-- C4: the overall status of the assembled response is `success` as soon as
one artifact succeeded (with the non-fatal error list attached alongside the
artifacts), `success_no_output` when nothing was produced and no non-fatal
error occurred, and a failure when nothing was produced but non-fatal errors
did occur. -/
theorem claim_C4_result_status (images videos : List ProcessedFile)
    (errors : List String) :
    (images ≠ [] ∨ videos ≠ [] →
      buildResponse images videos errors = .okR "success" images videos errors) ∧
    (images = [] → videos = [] → errors = [] →
      buildResponse images videos errors = .okR "success_no_output" [] [] []) ∧
    (images = [] → videos = [] → errors ≠ [] →
      buildResponse images videos errors =
        .errR "Job processing failed" errors) := by
  unfold buildResponse
  refine ⟨fun h => ?_, fun h1 h2 h3 => ?_, fun h1 h2 h3 => ?_⟩
  · rcases h with h | h <;> simp [h]
  · simp [h1, h2, h3]
  · simp [h1, h2, h3]

/-- Witness for C4: one successful artifact with one error gives `success`;
nothing with nothing gives `success_no_output`; nothing with one error fails. -/
theorem claim_C4_result_status_witness :
    buildResponse [exImageArtifact] [] ["e"] =
      .okR "success" [exImageArtifact] [] ["e"] ∧
    buildResponse [] [] [] = .okR "success_no_output" [] [] [] ∧
    buildResponse [] [] ["e"] = .errR "Job processing failed" ["e"] :=
  ⟨(claim_C4_result_status [exImageArtifact] [] ["e"]).1
      (Or.inl (by simp)),
    (claim_C4_result_status [] [] []).2.1 rfl rfl rfl,
    (claim_C4_result_status [] [] ["e"]).2.2 rfl rfl (by simp)⟩

/-- The protocol-shaped shorthand constructors of `Frame` behave exactly
like the loop-body interpretation of their decoded JSON payloads. -/
theorem processFrame_textJson_agrees (promptId : String) (st : LoopState) :
    (∀ q : Nat, processFrame promptId st (.statusF q) =
      processFrame promptId st (.textJson (statusJson q))) ∧
    (∀ node pid, processFrame promptId st (.executingF node pid) =
      processFrame promptId st (.textJson (executingJson node pid))) ∧
    (∀ pid nodeType nodeId message,
      processFrame promptId st (.executionErrorF pid nodeType nodeId message)
        = processFrame promptId st
          (.textJson (executionErrorJson pid nodeType nodeId message))) ∧
    (∀ v m : Nat, processFrame promptId st (.progressF v m) =
      processFrame promptId st (.textJson (progressJson v m))) := by
  refine ⟨fun q => rfl, ?_, ?_, ?_⟩
  · intro node pid
    cases node with
    | none =>
      cases pid with
      | none => rfl
      | some p =>
        by_cases hp : p = promptId
        · subst hp
          simp [processFrame, interpretMessage, executingJson, jsonGet,
            isNoneLike, isStrVal]
        · simp [processFrame, interpretMessage, executingJson, jsonGet,
            isNoneLike, isStrVal, hp]
    | some s =>
      cases pid with
      | none => rfl
      | some p => rfl
  · intro pid nodeType nodeId message
    cases pid with
    | none => rfl
    | some p =>
      by_cases hp : p = promptId
      · subst hp
        simp [processFrame, interpretMessage, executionErrorJson, jsonGet,
          isStrVal, pyGetStr, pyStr]
      · simp [processFrame, interpretMessage, executionErrorJson, jsonGet,
          isStrVal, pyGetStr, pyStr, hp]
  · intro v m
    by_cases hm : (0 : Int) < (m : Int)
    · simp [processFrame, interpretMessage, progressJson, jsonGet, isStrVal,
        progressValueStep, hm]
    · simp [processFrame, interpretMessage, progressJson, jsonGet, isStrVal,
        progressValueStep, hm]

/-- C8 (amended): the receive loop treats a JSON-parse failure and a receive
timeout as non-events — the state is unchanged, the loop does not terminate
on them, and any number of consecutive timeouts is absorbed without bound —
but a text frame whose payload parses as valid JSON without being a
protocol-shaped object raises an uncaught `AttributeError`, which
terminates the loop (and, via the handler's outermost `except`, the whole
job). -/
theorem claim_C8_nonfatal_frames (pid : String) (st : LoopState) :
    (processFrame pid st .malformed = .contF st) ∧
    (processFrame pid st .timeoutF = .contF st) ∧
    (∀ (maxA : Nat) (frames : List Frame) (eps : List Episode),
      eventLoop pid maxA (.malformed :: frames) eps st =
        eventLoop pid maxA frames eps st) ∧
    (∀ (maxA : Nat) (frames : List Frame) (eps : List Episode),
      eventLoop pid maxA (.timeoutF :: frames) eps st =
        eventLoop pid maxA frames eps st) ∧
    (∀ (n maxA : Nat) (frames : List Frame) (eps : List Episode),
      eventLoop pid maxA (List.replicate n .timeoutF ++ frames) eps st =
        eventLoop pid maxA frames eps st) ∧
    (∀ j : Json, j.isObj = false →
      processFrame pid st (.textJson j) = .raiseF (noGetAttrMsg j)) ∧
    (∀ (maxA : Nat) (frames : List Frame) (eps : List Episode) (f : Frame)
      (e : String), processFrame pid st f = .raiseF e →
      eventLoop pid maxA (f :: frames) eps st = .raised e) := by
  refine ⟨rfl, rfl, fun maxA frames eps => rfl, fun maxA frames eps => rfl,
    ?_, ?_, ?_⟩
  · intro n
    induction n with
    | zero => intro maxA frames eps; rfl
    | succ m ih =>
      intro maxA frames eps
      rw [List.replicate_succ, List.cons_append]
      exact ih maxA frames eps
  · intro j hj
    cases j <;> first | rfl | (exact absurd hj (by simp [Json.isObj]))
  · intro maxA frames eps f e h
    have hstep : eventLoop pid maxA (f :: frames) eps st =
        match processFrame pid st f with
        | .contF st' => eventLoop pid maxA frames eps st'
        | .breakF st' => .exited st'
        | .raiseF err => .raised err
        | .reconnectF err =>
          (match attempt_websocket_reconnect (eps.headD defaultEpisode).reach
              (eps.headD defaultEpisode).conn maxA err with
          | .reconnected _ =>
            eventLoop pid maxA frames (eps.drop 1) st
          | .abortedUnreachable =>
            .wsError "ComfyUI HTTP unreachable during websocket reconnect"
          | .exhausted lastError =>
            .wsError
              ("Connection closed and failed to reconnect. Last error: " ++
                lastError)) := rfl
    rw [hstep, h]

/-- Witness for C8: a JSON `null` payload raises the `NoneType` attribute
error, and a JSON array payload makes the loop end with the `list`
attribute error. -/
theorem claim_C8_nonfatal_frames_witness :
    processFrame "p1" ⟨false, []⟩ (.textJson .null) =
      .raiseF "'NoneType' object has no attribute 'get'" ∧
    eventLoop "p1" 5 [.textJson (.arrJ [.numJ 1, .numJ 2])] [] ⟨false, []⟩ =
      .raised "'list' object has no attribute 'get'" :=
  ⟨(claim_C8_nonfatal_frames "p1" ⟨false, []⟩).2.2.2.2.2.1 .null rfl,
    (claim_C8_nonfatal_frames "p1" ⟨false, []⟩).2.2.2.2.2.2 5 [] []
      (.textJson (.arrJ [.numJ 1, .numJ 2]))
      "'list' object has no attribute 'get'" rfl⟩

/-- C8 (counterexample): the claim says the loop never terminates on a
malformed frame, but a text frame carrying the valid JSON value `null` is
not a protocol object: `message.get("type")` raises `AttributeError`, the
loop terminates, and the handler aborts the whole job with an
`Unexpected error` result instead of retrying. -/
theorem claim_C8_counterexample :
    eventLoop "p1" 5 [.textJson .null] [] ⟨false, []⟩ =
      .raised "'NoneType' object has no attribute 'get'" ∧
    handler (some exInput) "j1" nonProtocolWorld =
      (.errR "Unexpected error: 'NoneType' object has no attribute 'get'" [],
        [], [.validation, .livenessCheck, .inputAcquisition, .templateLoad,
          .transform, .wsConnect, .submission, .tracking, .cleanup,
          .cleanup]) :=
  ⟨rfl, rfl⟩

/-- C1 (code bug): when the reference-image download succeeds but the
dance-video download fails, the handler returns the download error without
running any cleanup — `download_inputs` discarded the filename dict, so
the already-downloaded reference file `ref_j1.png` is still on disk when
the handler returns, contradicting the removed-exactly-once invariant. -/
theorem claim_C1_cleanup_bug :
    handler (some exInput) "j1" dlFailWorld =
      (.errR "HTTP 404 downloading dance_video" [], ["ref_j1.png"],
        [.validation, .livenessCheck, .inputAcquisition]) := rfl

/-- C2 (counterexample): a run that receives an `execution_error` event
matching the engine job id `p1` still returns an overall `success` result
when the history contains a fetchable artifact — the tracker's failure is
demoted to a non-fatal error entry. -/
theorem claim_C2_counterexample :
    execErrorWorld.frames =
      [.executionErrorF (some "p1") "KSampler" "5" "boom"] ∧
    execErrorWorld.queueResult = .ok "p1" ∧
    handler (some exInput) "j1" execErrorWorld =
      (.okR "success" [exImageArtifact] [] [execErrorMsg], [],
        [.validation, .livenessCheck, .inputAcquisition, .templateLoad,
          .transform, .wsConnect, .submission, .tracking, .collection,
          .cleanup]) :=
  ⟨rfl, rfl, rfl⟩

/-- C2 (amended): a matching `execution_error` event terminates the receive
loop and records the event's component type, id and message verbatim in the
error list; the job result is a fatal failure when output collection then
yields no artifacts, but when artifacts are still collected the result is a
success that carries the execution error as a non-fatal entry. -/
theorem claim_C2_execution_error (pid nodeType nodeId message : String)
    (st : LoopState) :
    processFrame pid st
        (.executionErrorF (some pid) nodeType nodeId message) =
      .breakF
        { st with
          errors := st.errors ++
            ["Workflow execution error: Node Type: " ++ nodeType ++
              ", Node ID: " ++ nodeId ++ ", Message: " ++ message] } ∧
    handler (some exInput) "j1" execErrorNoOutputWorld =
      (.errR "Job processing failed"
          [execErrorMsg, "No outputs found in history"], [],
        [.validation, .livenessCheck, .inputAcquisition, .templateLoad,
          .transform, .wsConnect, .submission, .tracking, .collection,
          .cleanup]) :=
  ⟨by simp [processFrame], rfl⟩

/-- C6: every entry of a structured rejection's `node_errors` map surfaces
verbatim in the submission error message as the line
`Node <id> (<kind>): <message>`. -/
theorem claim_C6_node_errors (ef : Option ErrField)
    (ne : List (String × NodeErrVal)) (nid ty msg : String)
    (kvs : List (String × String))
    (hmem : (nid, NodeErrVal.dict kvs) ∈ ne) (hkv : (ty, msg) ∈ kvs) :
    strContains ("Node " ++ nid ++ " (" ++ ty ++ "): " ++ msg)
      (queue_workflow_error_message ef (some ne)) := by
  have hdet : ("Node " ++ nid ++ " (" ++ ty ++ "): " ++ msg) ∈
      nodeErrorDetails ne := by
    unfold nodeErrorDetails
    rw [List.mem_flatMap]
    refine ⟨(nid, .dict kvs), hmem, ?_⟩
    exact List.mem_map_of_mem _ hkv
  have hnonempty : nodeErrorDetails ne ≠ [] := List.ne_nil_of_mem hdet
  have hbul : ("• " ++ ("Node " ++ nid ++ " (" ++ ty ++ "): " ++ msg)) ∈
      (nodeErrorDetails ne).map (fun d => "• " ++ d) :=
    List.mem_map_of_mem _ hdet
  obtain ⟨a, b, hab⟩ := strContains_of_mem_joinNL _ _ hbul
  unfold queue_workflow_error_message
  dsimp only
  rw [if_neg hnonempty]
  refine ⟨(match ef with
    | none => "Workflow validation failed"
    | some (.objField message) => message.getD "Workflow validation failed"
    | some (.strField s) => s).data ++ ":\n".data ++ a ++ "• ".data, b, ?_⟩
  simp [String.data_append, hab, List.append_assoc]

/-- Witness for C6: the rejection map of the spec example produces a message
containing `Node 12 (type_error): bad value`. -/
theorem claim_C6_node_errors_witness :
    strContains "Node 12 (type_error): bad value"
      (queue_workflow_error_message none
        (some [("12", .dict [("type_error", "bad value")])])) := by
  have h := claim_C6_node_errors none
    [("12", .dict [("type_error", "bad value")])] "12" "type_error"
    "bad value" [("type_error", "bad value")] (by simp) (by simp)
  have he : ("Node " ++ "12" ++ " (" ++ "type_error" ++ "): " ++ "bad value")
      = "Node 12 (type_error): bad value" := by decide
  rwa [he] at h

/-- A successful reconnect happens at an attempt index within the fuel. -/
theorem reconnectLoop_reconnected_bounds (reach : Nat → Bool)
    (conn : Nat → Option String) :
    ∀ (r a : Nat) (le : String) (k : Nat),
      reconnectLoop reach conn a r le = .reconnected k →
      a ≤ k ∧ k < a + r := by
  intro r
  induction r with
  | zero =>
    intro a le k h
    exact absurd h (by simp [reconnectLoop])
  | succ m ih =>
    intro a le k h
    unfold reconnectLoop at h
    by_cases hr : reach a = true
    · rw [if_pos hr] at h
      cases hc : conn a with
      | none =>
        rw [hc] at h
        simp only [ReconnectResult.reconnected.injEq] at h
        omega
      | some e =>
        rw [hc] at h
        have := ih (a + 1) e k h
        omega
    · rw [if_neg hr] at h
      exact absurd h (by simp)

/-- A failed reachability probe at attempt `k` (after `k` failed connect
attempts) aborts the reconnect loop. -/
theorem reconnectLoop_aborted (reach : Nat → Bool)
    (conn : Nat → Option String) :
    ∀ (k r a : Nat) (le : String), k < r →
      (∀ j, j < k → reach (a + j) = true ∧ conn (a + j) ≠ none) →
      reach (a + k) = false →
      reconnectLoop reach conn a r le = .abortedUnreachable := by
  intro k
  induction k with
  | zero =>
    intro r a le hkr hprev hk
    cases r with
    | zero => omega
    | succ m =>
      have hk' : reach a = false := by simpa using hk
      unfold reconnectLoop
      simp [hk']
  | succ n ih =>
    intro r a le hkr hprev hk
    cases r with
    | zero => omega
    | succ m =>
      have h0 := hprev 0 (Nat.succ_pos n)
      have hr0 : reach a = true := by simpa using h0.1
      obtain ⟨e, hce⟩ : ∃ e, conn a = some e := by
        rcases hc : conn a with _ | e
        · exact absurd hc (by simpa using h0.2)
        · exact ⟨e, rfl⟩
      unfold reconnectLoop
      simp only [hr0, if_true, hce]
      refine ih m (a + 1) e (by omega) ?_ ?_
      · intro j hj
        have h' := hprev (j + 1) (by omega)
        have heq : a + (j + 1) = a + 1 + j := by omega
        rw [heq] at h'
        exact h'
      · have heq : a + (n + 1) = a + 1 + n := by omega
        rw [heq] at hk
        exact hk

/-- When the probe keeps succeeding and every connect attempt fails, the
loop uses all its fuel and reports the last attempt's error. -/
theorem reconnectLoop_exhausted (reach : Nat → Bool)
    (conn : Nat → Option String) :
    ∀ (r a : Nat) (le : String),
      (∀ j, j < r → reach (a + j) = true ∧ conn (a + j) ≠ none) →
      reconnectLoop reach conn a r le =
        .exhausted (if r = 0 then le else (conn (a + r - 1)).getD le) := by
  intro r
  induction r with
  | zero =>
    intro a le _
    simp [reconnectLoop]
  | succ m ih =>
    intro a le hall
    have h0 := hall 0 (Nat.succ_pos m)
    have hr0 : reach a = true := by simpa using h0.1
    obtain ⟨e, hce⟩ : ∃ e, conn a = some e := by
      rcases hc : conn a with _ | e
      · exact absurd hc (by simpa using h0.2)
      · exact ⟨e, rfl⟩
    unfold reconnectLoop
    simp only [hr0, if_true, hce]
    rw [ih (a + 1) e (fun j hj => by
      have h' := hall (j + 1) (by omega)
      have heq : a + (j + 1) = a + 1 + j := by omega
      rw [heq] at h'
      exact h')]
    cases m with
    | zero => simp [hce]
    | succ p =>
      obtain ⟨e2, hc2⟩ : ∃ e2, conn (a + (p + 1)) = some e2 := by
        have h' := hall (p + 1) (by omega)
        rcases hc : conn (a + (p + 1)) with _ | e2
        · exact absurd hc (by simpa using h'.2)
        · exact ⟨e2, rfl⟩
      have heq : a + 1 + (p + 1) - 1 = a + (p + 1) := by omega
      have heq2 : a + (p + 1 + 1) - 1 = a + (p + 1) := by omega
      simp [heq, heq2, hc2]

/-- The loop reconnects at the first attempt whose probe and connect both
succeed, provided it lies within the fuel. -/
theorem reconnectLoop_success (reach : Nat → Bool)
    (conn : Nat → Option String) :
    ∀ (k r a : Nat) (le : String), k < r →
      (∀ j, j < k → reach (a + j) = true ∧ conn (a + j) ≠ none) →
      reach (a + k) = true → conn (a + k) = none →
      reconnectLoop reach conn a r le = .reconnected (a + k) := by
  intro k
  induction k with
  | zero =>
    intro r a le hkr hprev hk hc
    cases r with
    | zero => omega
    | succ m =>
      have hk' : reach a = true := by simpa using hk
      have hc' : conn a = none := by simpa using hc
      unfold reconnectLoop
      simp [hk', hc']
  | succ n ih =>
    intro r a le hkr hprev hk hc
    cases r with
    | zero => omega
    | succ m =>
      have h0 := hprev 0 (Nat.succ_pos n)
      have hr0 : reach a = true := by simpa using h0.1
      obtain ⟨e, hce⟩ : ∃ e, conn a = some e := by
        rcases hcc : conn a with _ | e
        · exact absurd hcc (by simpa using h0.2)
        · exact ⟨e, rfl⟩
      unfold reconnectLoop
      simp only [hr0, if_true, hce]
      have heq : a + (n + 1) = a + 1 + n := by omega
      have goal := ih m (a + 1) e (by omega)
        (fun j hj => by
          have h' := hprev (j + 1) (by omega)
          have heq2 : a + (j + 1) = a + 1 + j := by omega
          rw [heq2] at h'
          exact h')
        (by rw [heq] at hk; exact hk)
        (by rw [heq] at hc; exact hc)
      rw [goal, heq]



/-- C3: before each reconnect attempt the engine's HTTP reachability is
re-verified and an unreachable probe aborts immediately; otherwise at most
the configured number of connect attempts are made, exhausting them raises
the error of the last failed attempt, a success within the bound reconnects
at the first succeeding attempt, and after a successful reconnect the event
loop resumes consuming the remaining frames. -/
theorem claim_C3_reconnect (reach : Nat → Bool) (conn : Nat → Option String) :
    (∀ (n k : Nat) (le : String), k < n →
      (∀ j, j < k → reach j = true ∧ conn j ≠ none) → reach k = false →
      attempt_websocket_reconnect reach conn n le = .abortedUnreachable) ∧
    (∀ (n : Nat) (le : String) (k : Nat),
      attempt_websocket_reconnect reach conn n le = .reconnected k → k < n) ∧
    (∀ (n : Nat) (le : String), 0 < n →
      (∀ j, j < n → reach j = true ∧ conn j ≠ none) →
      attempt_websocket_reconnect reach conn n le =
        .exhausted ((conn (n - 1)).getD le)) ∧
    (∀ (n k : Nat) (le : String), k < n →
      (∀ j, j < k → reach j = true ∧ conn j ≠ none) →
      reach k = true → conn k = none →
      attempt_websocket_reconnect reach conn n le = .reconnected k) ∧
    (∀ (pid : String) (maxA : Nat) (frames : List Frame)
      (eps : List Episode) (st : LoopState) (e : String) (ep : Episode)
      (k : Nat),
      attempt_websocket_reconnect ep.reach ep.conn maxA e = .reconnected k →
      eventLoop pid maxA (.connClosed e :: frames) (ep :: eps) st =
        eventLoop pid maxA frames eps st) := by
  refine ⟨?_, ?_, ?_, ?_, ?_⟩
  · intro n k le hkn hprev hk
    exact reconnectLoop_aborted reach conn k n 0 le hkn
      (fun j hj => by simpa using hprev j hj) (by simpa using hk)
  · intro n le k h
    have := reconnectLoop_reconnected_bounds reach conn n 0 le k h
    omega
  · intro n le hn hall
    have h2 := reconnectLoop_exhausted reach conn n 0 le
      (fun j hj => by simpa using hall j hj)
    rw [if_neg (by omega)] at h2
    simpa using h2
  · intro n k le hkn hprev hk hc
    have h2 := reconnectLoop_success reach conn k n 0 le hkn
      (fun j hj => by simpa using hprev j hj) (by simpa using hk)
      (by simpa using hc)
    simpa using h2
  · intro pid maxA frames eps st e ep k h
    have hstep : eventLoop pid maxA (.connClosed e :: frames) (ep :: eps) st =
        match attempt_websocket_reconnect ep.reach ep.conn maxA e with
        | .reconnected _ => eventLoop pid maxA frames eps st
        | .abortedUnreachable =>
          .wsError "ComfyUI HTTP unreachable during websocket reconnect"
        | .exhausted lastError =>
          .wsError ("Connection closed and failed to reconnect. Last error: "
            ++ lastError) := rfl
    rw [hstep, h]

/-- Witness for C3: with a bound of 3 and every connect failing, the helper
stops after the third attempt and reports its error `e2`; when the second
attempt succeeds, it reconnects at attempt index 1. -/
theorem claim_C3_reconnect_witness :
    attempt_websocket_reconnect exFailEpisode.reach exFailEpisode.conn 3 "init"
        = .exhausted "e2" ∧
    attempt_websocket_reconnect exRetryEpisode.reach exRetryEpisode.conn 3
        "init" = .reconnected 1 :=
  ⟨(claim_C3_reconnect exFailEpisode.reach exFailEpisode.conn).2.2.1 3 "init"
      (by norm_num) (by decide),
    (claim_C3_reconnect exRetryEpisode.reach exRetryEpisode.conn).2.2.2.1 3 1
      "init" (by norm_num) (by decide) (by decide) (by decide)⟩

/-- C5: manifest entries under `images` become image artifacts and entries
under `gifs` become video artifacts; a video artifact carries its entry's
content-format tag, defaulting to `video/h264-mp4` when absent; `temp`
entries are skipped without an error entry; any other output key is
ignored without error. -/
theorem claim_C5_classification (fetch : FetchFn) (bucket : Bool)
    (ui uf : UploadFn) :
    (∀ e : FileEntry, e.ftype = some "temp" →
      process_image_output fetch bucket ui e = none ∧
      process_video_output fetch bucket uf e = none) ∧
    (∀ (nid : String) (e : FileEntry), e.ftype = some "temp" →
      process_outputs fetch bucket ui uf
        [(nid, ⟨some [e], some [e], []⟩)] = ([], [], [])) ∧
    (∀ (e : FileEntry) (r : ProcessedFile),
      process_video_output fetch bucket uf e = some r →
      r.format = some (e.format.getD "video/h264-mp4")) ∧
    (∀ (e : FileEntry) (r : ProcessedFile),
      process_image_output fetch bucket ui e = some r → r.format = none) ∧
    (∀ (nid : String) (ks : List String),
      process_outputs fetch bucket ui uf
        [(nid, ⟨none, none, ks⟩)] = ([], [], [])) ∧
    (process_outputs exFetch false ui uf
        [("1", ⟨some [⟨some "a.png", none, some "output", none⟩], none, []⟩),
          ("2", ⟨none, some [exVideoEntry], []⟩)] =
      ([exImageArtifact], [exVideoArtifact], [])) := by
  refine ⟨?_, ?_, ?_, ?_, ?_, ?_⟩
  · intro e h
    constructor
    · simp [process_image_output, h]
    · simp [process_video_output, h]
  · intro nid e h
    simp [process_outputs, processImageEntries, processVideoEntries,
      process_image_output, process_video_output, h]
  · intro e r h
    unfold process_video_output at h
    dsimp only at h
    repeat' split at h
    all_goals first
      | (injection h with h; subst h; rfl)
      | cases h
  · intro e r h
    unfold process_image_output at h
    dsimp only at h
    repeat' split at h
    all_goals first
      | (injection h with h; subst h; rfl)
      | cases h
  · intro nid ks
    simp [process_outputs]
  · rfl

/-- Witness for C5: a `temp` entry is skipped silently by both processors
and contributes no error, and the example video artifact carries the
`video/h264-mp4` tag. -/
theorem claim_C5_witness :
    process_image_output exFetch false exUpload exTempEntry = none ∧
    process_video_output exFetch false exUpload exTempEntry = none ∧
    process_outputs exFetch false exUpload exUpload
        [("9", ⟨some [exTempEntry], some [exTempEntry], []⟩)] =
      ([], [], []) ∧
    exVideoArtifact.format = some "video/h264-mp4" :=
  ⟨((claim_C5_classification exFetch false exUpload exUpload).1
      exTempEntry rfl).1,
    ((claim_C5_classification exFetch false exUpload exUpload).1
      exTempEntry rfl).2,
    (claim_C5_classification exFetch false exUpload exUpload).2.1
      "9" exTempEntry rfl,
    (claim_C5_classification exFetch false exUpload exUpload).2.2.1
      exVideoEntry exVideoArtifact rfl⟩

/-- C9 (amended): on every run the executed stages appear in the relative
order validation, liveness check, input acquisition, template load,
transform, websocket connect, submission, tracking, collection, cleanup —
in particular the liveness check precedes input acquisition and all
submission work follows it. -/
theorem claim_C9_stage_order (jobInput : Option JobInput) (jobId : String)
    (w : World) :
    List.Sublist (handler jobInput jobId w).2.2 canonicalStageOrder := by
  unfold handler handlerAfterLoop
  repeat' split
  all_goals (dsimp only; decide)

/-- C9 (counterexample): in a fully successful run the liveness check is
the second stage executed and input acquisition only the third, so
liveness-check work does happen before input acquisition, contrary to the
claimed acquisition-first ordering. -/
theorem claim_C9_counterexample :
    (handler (some exInput) "j1" successWorld).2.2 =
      [.validation, .livenessCheck, .inputAcquisition, .templateLoad,
        .transform, .wsConnect, .submission, .tracking, .collection,
        .cleanup] := rfl

end XiconHandler
